import Mathlib

/-!
# Verification of the feedback-backend core

A shallow embedding of the feedback/form repositories of the
feedback-backend service (`controllers/feedback.py`, `controllers/form.py`)
together with proofs about the behaviour its specification describes.

JSON scalar values arriving in request bodies are modelled by `JVal`
(null, integer, string); a request field that may be absent is an
`Option JVal`, with `none` meaning the key is absent from the payload and
`some JVal.jnull` meaning the key is present with a JSON `null` value.
Timestamps (`datetime.now()`) are modelled as a `Nat` parameter `now`
supplied to each operation; generated UUIDs are a `String` parameter.
The MongoDB database is modelled as an association list of collections:
for feedback one collection per package name, for forms one shared list.
-/

/-- A JSON scalar value as it appears in a request payload:
`null`, an integer, or a string. -/
inductive JVal where
  | jnull
  | jint (n : Int)
  | jstr (s : String)
deriving DecidableEq, Repr

/-- Python truthiness of a `JVal` (`bool(v)`): `None`, `0` and `""` are
falsy, everything else truthy. -/
def JVal.truthy : JVal → Bool
  | .jnull => false
  | .jint n => n != 0
  | .jstr s => s != ""

/-- Truthiness of `data.get(key)`: an absent key yields `None` (falsy),
otherwise the value's own truthiness. -/
def optTruthy : Option JVal → Bool
  | none => false
  | some v => v.truthy

/-- Models the Python test `data.get(key) is None`: true when the key is
absent or holds JSON `null`. -/
def isPyNone : Option JVal → Bool
  | none => true
  | some .jnull => true
  | some _ => false

/-- Decimal digit value of a character, or `none`. -/
def digitVal (c : Char) : Option Nat :=
  if 48 ≤ c.toNat ∧ c.toNat ≤ 57 then some (c.toNat - 48) else none

/-- Reads a non-empty all-digit character list as a natural number. -/
def digitsToNatAux (acc : Nat) : List Char → Option Nat
  | [] => some acc
  | c :: cs =>
    match digitVal c with
    | some d => digitsToNatAux (acc * 10 + d) cs
    | none => none

/-- Reads a non-empty all-digit character list as a natural number;
`none` on the empty list or any non-digit character. -/
def digitsToNat : List Char → Option Nat
  | [] => none
  | c :: cs => digitsToNatAux 0 (c :: cs)

/-- Strips leading and trailing spaces from a character list. -/
def stripSpaces (cs : List Char) : List Char :=
  ((cs.dropWhile (· == ' ')).reverse.dropWhile (· == ' ')).reverse

/-- Models Python `int(s)` on a string: optional surrounding whitespace,
an optional sign, then one or more decimal digits; `none` when the string
does not parse (`ValueError`). -/
def pyParseInt (s : String) : Option Int :=
  match stripSpaces s.data with
  | '-' :: rest => (digitsToNat rest).map (fun n => -(n : Int))
  | '+' :: rest => (digitsToNat rest).map (fun n => (n : Int))
  | cs => (digitsToNat cs).map (fun n => (n : Int))

/-- Models Python `int(v)` on a JSON scalar: integers pass through,
strings are parsed, `None` raises `TypeError` (here `none`). -/
def pyIntCast : JVal → Option Int
  | .jnull => none
  | .jint n => some n
  | .jstr s => pyParseInt s

/-- The rating-range validation of `submit_feedback` (feedback.py lines
118-129): `int(value)` must succeed and land in `1..5`. -/
def ratingInRange (v : JVal) : Bool :=
  match pyIntCast v with
  | some n => decide (1 ≤ n) && decide (n ≤ 5)
  | none => false

/-- A stored feedback document (the dict built at feedback.py lines
135-144). `id` is the generated `_id`; `created_at` the creation time. -/
structure FeedbackDoc where
  id : String
  message : Option JVal
  rating : Option JVal
  app_version : Option JVal
  device_info : Option JVal
  form_id : Option JVal
  user_id : Option JVal
  created_at : Nat
deriving DecidableEq, Repr

/-- The feedback side of the MongoDB database: one collection (list of
documents) per package name, keyed by the collection's name. -/
abbrev FeedbackDB : Type := List (String × List FeedbackDoc)

/-- `db.list_collection_names()`. -/
def listCollectionNames (db : FeedbackDB) : List String :=
  db.map (fun c => c.1)

/-- `db[name]`: the documents of a collection (empty for an absent one;
the callers below always guard access with an existence check, except
`insert_one` which creates the collection). -/
def getCollection (db : FeedbackDB) (name : String) : List FeedbackDoc :=
  match db.find? (fun c => c.1 == name) with
  | some c => c.2
  | none => []

/-- Replaces the contents of a collection, creating it when absent (as a
MongoDB write to a fresh collection does). -/
def setCollection (db : FeedbackDB) (name : String) (docs : List FeedbackDoc) : FeedbackDB :=
  if (db.find? (fun c => c.1 == name)).isSome then
    db.map (fun c => if c.1 == name then (c.1, docs) else c)
  else db ++ [(name, docs)]

/-- The JSON payload of `POST /feedback`. `none` = key absent from the
request body. -/
structure SubmitData where
  package_name : Option JVal
  message : Option JVal
  rating : Option JVal
  app_version : Option JVal
  device_info : Option JVal
  form_id : Option JVal
  user_id : Option JVal
deriving DecidableEq, Repr

/-- `not data`: the payload dict is empty (no recognised key present). -/
def SubmitData.isEmptyDict (d : SubmitData) : Bool :=
  d.package_name.isNone && d.message.isNone && d.rating.isNone &&
  d.app_version.isNone && d.device_info.isNone && d.form_id.isNone &&
  d.user_id.isNone

/-- The required-field scan of feedback.py line 102, in source order. -/
def requiredMissing (d : SubmitData) : List String :=
  (if d.package_name.isNone then ["package_name"] else []) ++
  (if d.app_version.isNone then ["app_version"] else []) ++
  (if d.form_id.isNone then ["form_id"] else []) ++
  (if d.user_id.isNone then ["user_id"] else [])

/-- Outcome of `submit_feedback`. The first four constructors are the
400-status validation failures, `storageError` the 500 of the
`try/except` around the insert, `created` the 201 success. -/
inductive SubmitOutcome where
  | missingBody
  | missingFields (fields : List String)
  | missingMessageAndRating
  | invalidRating
  | storageError
  | created (id : String)
deriving DecidableEq, Repr

/-- Whether an outcome is one of the 400 `ValidationError` responses. -/
def SubmitOutcome.isValidationError : SubmitOutcome → Bool
  | .missingBody => true
  | .missingFields _ => true
  | .missingMessageAndRating => true
  | .invalidRating => true
  | .storageError => false
  | .created _ => false

/-- The storage step of `submit_feedback` (feedback.py lines 135-152):
builds the document and inserts it into the collection named by the
payload's `package_name`. A non-string `package_name`, or a duplicate
`_id` (MongoDB enforces `_id` uniqueness), makes the insert raise, which
the `except` clause turns into the 500 `storageError`. -/
def submitInsert (gen_id : String) (now : Nat) (data : SubmitData)
    (db : FeedbackDB) : SubmitOutcome × FeedbackDB :=
  match data.package_name with
  | some (.jstr pkg) =>
    let doc : FeedbackDoc :=
      { id := gen_id, message := data.message, rating := data.rating,
        app_version := data.app_version, device_info := data.device_info,
        form_id := data.form_id, user_id := data.user_id, created_at := now }
    if (getCollection db pkg).any (fun f => f.id == gen_id) then
      (.storageError, db)
    else
      (.created gen_id, setCollection db pkg (getCollection db pkg ++ [doc]))
  | _ => (.storageError, db)

/-- The rating validation gate of feedback.py lines 118-129: it fires
exactly when `"rating" in data` and the present value fails the
`int()`-coercion/range check. -/
def ratingPresentInvalid : Option JVal → Bool
  | some v => !(ratingInRange v)
  | none => false

/-- `submit_feedback` (feedback.py lines 84-166): body present, required
fields present, at least one of `message`/`rating`, rating range check,
then insert. Every validation failure returns before any storage write,
so the database component is unchanged there. -/
def submit_feedback (gen_id : String) (now : Nat) (data : SubmitData)
    (db : FeedbackDB) : SubmitOutcome × FeedbackDB :=
  if data.isEmptyDict then (.missingBody, db)
  else if requiredMissing data ≠ [] then (.missingFields (requiredMissing data), db)
  else if !optTruthy data.message && isPyNone data.rating then
    (.missingMessageAndRating, db)
  else if ratingPresentInvalid data.rating then (.invalidRating, db)
  else submitInsert gen_id now data db

/-- The optional `form_id` query filter shared by the list/aggregate
endpoints (e.g. feedback.py lines 440-443): an absent or empty query
parameter imposes no restriction, otherwise `{"form_id": fid}` matches
documents whose `form_id` equals the string. -/
def formQuery (form_id : Option String) (f : FeedbackDoc) : Bool :=
  match form_id with
  | none => true
  | some fid => if fid = "" then true else f.form_id == some (.jstr fid)

/-- The per-document step of the rating-collecting loops (feedback.py
lines 462-466 and 540-544): `isinstance(rating, int) and 1 <= rating <= 5`.
Returns the rating when it is a genuine integer in range, else `none`. -/
def ratingOfDoc (f : FeedbackDoc) : Option Int :=
  match f.rating with
  | some (.jint n) => if 1 ≤ n ∧ n ≤ 5 then some n else none
  | _ => none

/-- Whether a stored rating passes the `isinstance`/range test. -/
def isValidRating (r : Option JVal) : Bool :=
  match r with
  | some (.jint n) => decide (1 ≤ n) && decide (n ≤ 5)
  | _ => false

/-- The `ratings` list accumulated by the loops of `get_average_rating`
and `get_feedback_stats`: the valid ratings of the matching feedback, in
order. -/
def collectRatings (fs : List FeedbackDoc) : List Int :=
  fs.filterMap ratingOfDoc

/-- Result of `GET /feedback/<package_name>/average-rating`. Both
`packageNotFound` and `noFeedbacks` are 404 NotFound responses. -/
inductive AvgResult where
  | packageNotFound
  | noFeedbacks
  | ok (average_rating : Rat)
deriving DecidableEq, Repr

/-- `get_average_rating` (feedback.py lines 439-474): package existence
check, optional form filter, 404 when no matching feedback, else the
mean of the valid ratings, or `0` when there is none. Exact rational
arithmetic models Python's float division. -/
def get_average_rating (package_name : String) (form_id : Option String)
    (db : FeedbackDB) : AvgResult :=
  if package_name ∉ listCollectionNames db then .packageNotFound
  else
    let feedbacks := (getCollection db package_name).filter (formQuery form_id)
    if feedbacks.isEmpty then .noFeedbacks
    else
      let ratings := collectRatings feedbacks
      if !ratings.isEmpty then
        .ok ((ratings.sum : Rat) / (ratings.length : Rat))
      else .ok 0

/-- The stats dict of `get_feedback_stats` (feedback.py lines 549-553). -/
structure FeedbackStats where
  total_feedback : Nat
  average_rating : Rat
  rating_breakdown : List (String × Nat)
deriving DecidableEq, Repr

/-- Result of `GET /feedback/stats/<package_name>`; both failure
constructors are 404 NotFound responses. -/
inductive StatsResult where
  | packageNotFound
  | noFeedbacks
  | ok (stats : FeedbackStats)
deriving DecidableEq, Repr

/-- `{str(i): 0 for i in range(1, 6)}` (feedback.py line 537). -/
def initBreakdown : List (String × Nat) :=
  [("1", 0), ("2", 0), ("3", 0), ("4", 0), ("5", 0)]

/-- `m[k] += 1` on the breakdown dict; a key not in the dict is left
untouched (the code only ever bumps keys "1".."5", which are present). -/
def bumpKey (m : List (String × Nat)) (k : String) : List (String × Nat) :=
  m.map (fun p => if p.1 == k then (p.1, p.2 + 1) else p)

/-- Python `str` of a JSON scalar, as used in
`rating_breakdown[str(f["rating"])]` (feedback.py line 543). -/
def JVal.pyStr : JVal → String
  | .jnull => "None"
  | .jint n => toString n
  | .jstr s => s

/-- One iteration of the stats loop (feedback.py lines 540-544): bump the
breakdown at `str(rating)` when the rating is a valid integer 1-5. -/
def breakdownStep (m : List (String × Nat)) (f : FeedbackDoc) : List (String × Nat) :=
  match f.rating with
  | some v => if isValidRating (some v) then bumpKey m v.pyStr else m
  | none => m

/-- `get_feedback_stats` (feedback.py lines 515-556): package check,
optional form filter, 404 on empty filtered set, else total count of the
matching feedback, average of the valid ratings (0 if none), and the
"1".."5" occurrence breakdown. -/
def get_feedback_stats (package_name : String) (form_id : Option String)
    (db : FeedbackDB) : StatsResult :=
  if package_name ∉ listCollectionNames db then .packageNotFound
  else
    let feedbacks := (getCollection db package_name).filter (formQuery form_id)
    if feedbacks.isEmpty then .noFeedbacks
    else
      let ratings := collectRatings feedbacks
      let breakdown := feedbacks.foldl breakdownStep initBreakdown
      let avg : Rat :=
        if !ratings.isEmpty then (ratings.sum : Rat) / (ratings.length : Rat)
        else 0
      .ok { total_feedback := feedbacks.length, average_rating := avg,
            rating_breakdown := breakdown }

/-- Lower-cases an ASCII letter, leaves every other character alone. -/
def lcChar (c : Char) : Char :=
  if 65 ≤ c.toNat ∧ c.toNat ≤ 90 then Char.ofNat (c.toNat + 32) else c

/-- Character-wise ASCII lower-casing of a string's characters. -/
def lcList (cs : List Char) : List Char := cs.map lcChar

/-- Boolean prefix test on character lists. -/
def listPrefixOf : List Char → List Char → Bool
  | [], _ => true
  | _ :: _, [] => false
  | a :: p, b :: s => a == b && listPrefixOf p s

/-- Boolean contiguous-sublist test: `p` is a prefix of some suffix. -/
def listSub (p s : List Char) : Bool :=
  match s with
  | [] => listPrefixOf p []
  | _ :: rest => listPrefixOf p s || listSub p rest

/-- Case-insensitive substring test: the pattern's lower-cased characters
occur contiguously inside the lower-cased haystack. -/
def containsCI (hay pat : String) : Bool :=
  listSub (lcList pat.data) (lcList hay.data)

/-- Modelled from the spec: the storage engine's find with a
case-insensitive pattern, `{"message": {"$regex": q, "$options": "i"}}`
(feedback.py lines 617-619). The MongoDB matching engine is not part of
this repository's sources; §6 of the spec describes the collection
contract as "case-insensitive substring" find and §4.1 states that an
"empty/absent term matches everything". So: an empty search term matches
every document, and a non-empty term matches exactly the documents whose
`message` is a string containing the term case-insensitively (a document
whose `message` is absent or null has no substrings, hence no match). -/
def messageMatchesCI (q : String) (f : FeedbackDoc) : Bool :=
  if q = "" then true
  else
    match f.message with
    | some (.jstr s) => containsCI s q
    | _ => false

/-- Result of `GET /feedback/<package_name>/search`. -/
inductive SearchResult where
  | packageNotFound
  | ok (results : List FeedbackDoc)
deriving DecidableEq, Repr

/-- `search_feedback_by_message` (feedback.py lines 605-622): package
existence check, then the case-insensitive message find; an empty match
list is returned with a 200, never a 404. -/
def search_feedback_by_message (package_name : String) (q : String)
    (db : FeedbackDB) : SearchResult :=
  if package_name ∉ listCollectionNames db then .packageNotFound
  else .ok ((getCollection db package_name).filter (messageMatchesCI q))

/-- Result of the two bulk feedback deletions; `packageNotFound` and
`notFound` are 404 responses, `ok` carries `deleted_count`. -/
inductive DeleteResult where
  | packageNotFound
  | notFound
  | ok (deleted_count : Nat)
deriving DecidableEq, Repr

/-- `delete_feedbacks_for_form` (feedback.py lines 785-804): package
check, `delete_many({"form_id": form_id})`, then 404 when the deleted
count is zero, else the count. The deletion runs before the zero check,
matching the code's order (with zero matches it is a no-op anyway). -/
def delete_feedbacks_for_form (package_name form_id : String)
    (db : FeedbackDB) : DeleteResult × FeedbackDB :=
  if package_name ∉ listCollectionNames db then (.packageNotFound, db)
  else
    let docs := getCollection db package_name
    let deleted_count := (docs.filter (fun f => f.form_id == some (.jstr form_id))).length
    let db2 := setCollection db package_name
      (docs.filter (fun f => !(f.form_id == some (.jstr form_id))))
    if deleted_count == 0 then (.notFound, db2)
    else (.ok deleted_count, db2)

/-- `delete_all_feedbacks` (feedback.py lines 833-847): package check,
`delete_many({})`, and the count is returned with a 200 even when it is
zero. -/
def delete_all_feedbacks (package_name : String) (db : FeedbackDB) :
    DeleteResult × FeedbackDB :=
  if package_name ∉ listCollectionNames db then (.packageNotFound, db)
  else
    let docs := getCollection db package_name
    (.ok docs.length, setCollection db package_name [])

/-- A document of the shared `forms` collection (form.py lines 94-102).
The Python dict key `type` is rendered as `form_type`, matching the
source's own local variable name (form.py line 76). -/
structure FormDoc where
  id : String
  package_name : String
  title : String
  form_type : String
  created_at : Nat
  updated_at : Nat
  is_active : Bool
deriving DecidableEq, Repr

/-- The shared `forms` collection. -/
abbrev FormsDB : Type := List FormDoc

/-- The per-document update of `create_form`'s
`update_many({"package_name": pkg, "is_active": True},
{"$set": {"is_active": False, "updated_at": now}})` (form.py lines
83-89): matching documents are deactivated AND get a fresh
`updated_at`. -/
def deactivateActiveStep (pkg : String) (now : Nat) (f : FormDoc) : FormDoc :=
  if f.package_name == pkg && f.is_active then
    { f with is_active := false, updated_at := now }
  else f

/-- The deactivation pass of `create_form` over the whole collection. -/
def deactivateActiveForms (pkg : String) (now : Nat) (forms : FormsDB) : FormsDB :=
  forms.map (deactivateActiveStep pkg now)

/-- The number of currently active forms of a package — `modified_count`
of `create_form`'s `update_many` (form.py line 90), since every matched
document flips from active to inactive. -/
def countActiveForms (pkg : String) (forms : FormsDB) : Nat :=
  (forms.filter (fun f => f.package_name == pkg && f.is_active)).length

/-- `insert_one` into the `forms` collection. MongoDB enforces `_id`
uniqueness: inserting a duplicate `_id` raises and leaves the collection
unchanged. -/
def insertOneForm (forms : FormsDB) (f : FormDoc) : FormsDB :=
  if forms.any (fun g => g.id == f.id) then forms else forms ++ [f]

/-- The JSON body returned by a successful `create_form` (form.py lines
108-113), as key/value pairs with the timestamp rendered as text. Its
keys are exactly `message`, `_id`, `created_at` and `type`. -/
def createFormResponse (form_id : String) (now : Nat) (form_type : String) :
    List (String × String) :=
  [("message", "Form created successfully!"), ("_id", form_id),
   ("created_at", toString now), ("type", form_type)]

/-- Result of `POST /admin/forms`: 400 on invalid input, 500 when the
insert raises (duplicate generated `_id`), else the 201 response body.
`disabled_count` is the `modified_count` the handler computes and logs
(form.py lines 90-91); it is carried here separately because it is NOT a
field of the HTTP response. -/
inductive CreateFormResult where
  | invalid
  | storageFailed
  | created (response : List (String × String)) (disabled_count : Nat)
deriving DecidableEq, Repr

/-- `create_form` (form.py lines 67-113): truthiness checks on
`package_name` and `title`, membership check on `type`, then — as two
sequential storage writes — deactivate all active forms of the package
(stamping their `updated_at`) and insert the new form, active, with
fresh `_id`, `created_at` and `updated_at`. -/
def create_form (gen_id : String) (now : Nat)
    (package_name title form_type : Option String) (forms : FormsDB) :
    CreateFormResult × FormsDB :=
  match package_name, title, form_type with
  | some pkg, some t, some ft =>
    if pkg == "" || t == "" || !(["rating", "free_text", "rating_text"].contains ft) then
      (.invalid, forms)
    else
      let disabled_count := countActiveForms pkg forms
      let forms2 := deactivateActiveForms pkg now forms
      let newForm : FormDoc :=
        { id := gen_id, package_name := pkg, title := t, form_type := ft,
          created_at := now, updated_at := now, is_active := true }
      if forms2.any (fun g => g.id == gen_id) then (.storageFailed, forms2)
      else (.created (createFormResponse gen_id now ft) disabled_count,
            forms2 ++ [newForm])
  | _, _, _ => (.invalid, forms)

/-- `find_one({"_id": form_id})` on the forms collection: the first
document with that id. -/
def findFormById (forms : FormsDB) (fid : String) : Option FormDoc :=
  forms.find? (fun f => f.id == fid)

/-- The per-document update of `update_form_status`'s
`update_many({"package_name": pkg, "_id": {"$ne": fid}, "is_active": True},
{"$set": {"is_active": False}})` (form.py lines 413-420). Unlike
`create_form`'s deactivation, this `$set` patch contains NO
`updated_at`, so the sibling keeps its old timestamp. -/
def deactivateOtherStep (pkg fid : String) (f : FormDoc) : FormDoc :=
  if f.package_name == pkg && f.id != fid && f.is_active then
    { f with is_active := false }
  else f

/-- The sibling-deactivation pass of `update_form_status`. -/
def deactivateOtherForms (pkg fid : String) (forms : FormsDB) : FormsDB :=
  forms.map (deactivateOtherStep pkg fid)

/-- `modified_count` of the sibling deactivation (form.py line 421). -/
def countOtherActiveForms (pkg fid : String) (forms : FormsDB) : Nat :=
  (forms.filter (fun f => f.package_name == pkg && f.id != fid && f.is_active)).length

/-- The `$set` patch of the final `update_one` on the target form
(form.py lines 425-431): status and a fresh `updated_at`. -/
def setTargetStep (is_active : Bool) (now : Nat) (f : FormDoc) : FormDoc :=
  { f with is_active := is_active, updated_at := now }

/-- `update_one({"_id": fid}, ...)`: updates the first document with the
given id, leaving the rest of the collection alone. -/
def updateFirstForm (forms : FormsDB) (fid : String) (u : FormDoc → FormDoc) :
    FormsDB :=
  match forms with
  | [] => []
  | f :: rest =>
    if f.id == fid then u f :: rest else f :: updateFirstForm rest fid u

/-- Result of `PUT /forms/<form_id>/activate`: 400 when the body lacks
`is_active`, 404 when the form id is unknown, else the 200 body's
fields. -/
inductive UpdateFormResult where
  | invalidRequest
  | formNotFound
  | ok (form_id : String) (is_active : Bool) (updated_at : Nat)
       (deactivated_forms_count : Nat)
deriving DecidableEq, Repr

/-- `update_form_status` (form.py lines 392-441): body check, lookup by
id, then — when activating — deactivate every other active form of the
same package (without touching their `updated_at`), and finally set the
target's status with a fresh `updated_at`. Deactivating (`is_active =
false`) skips the sibling pass and promotes nothing. -/
def update_form_status (form_id : String) (body_is_active : Option Bool)
    (now : Nat) (forms : FormsDB) : UpdateFormResult × FormsDB :=
  match body_is_active with
  | none => (.invalidRequest, forms)
  | some is_active =>
    match findFormById forms form_id with
    | none => (.formNotFound, forms)
    | some form =>
      let deactivated_forms_count :=
        if is_active then countOtherActiveForms form.package_name form_id forms
        else 0
      let forms2 :=
        if is_active then deactivateOtherForms form.package_name form_id forms
        else forms
      let forms3 := updateFirstForm forms2 form_id (setTargetStep is_active now)
      (.ok form_id is_active now deactivated_forms_count, forms3)

/-- The single-active-form invariant of §3 of the spec: at most one
active form per `package_name`. -/
def singleActiveInv (forms : FormsDB) : Prop :=
  ∀ pkg : String, countActiveForms pkg forms ≤ 1

/-- Well-formedness the storage engine guarantees: `_id` values are
unique within the `forms` collection (MongoDB's unique `_id` index). -/
def formIdsNodup (forms : FormsDB) : Prop :=
  (forms.map (fun f => f.id)).Nodup

/-- A form operation of the repository: `Create` (`POST /admin/forms`)
or `SetActive` (`PUT /forms/<form_id>/activate`). -/
inductive FormOp where
  | create (gen_id : String) (now : Nat)
      (package_name title form_type : Option String)
  | setActive (form_id : String) (body_is_active : Option Bool) (now : Nat)

/-- The state transition of one form operation. -/
def applyFormOp (op : FormOp) (forms : FormsDB) : FormsDB :=
  match op with
  | .create g n p t ft => (create_form g n p t ft forms).2
  | .setActive fid b n => (update_form_status fid b n forms).2

/-- A sequential execution of form operations. -/
def runFormOps (ops : List FormOp) (forms : FormsDB) : FormsDB :=
  ops.foldl (fun s op => applyFormOp op s) forms
/-! ## Properties of feedback submission (claims C4, C5, C10) -/

/-- C10: with all required fields present, a `message` that is present but
equal to the empty string, together with an absent `rating`, fails the
message-or-rating check exactly as an absent message does (`not
data.get("message")` is true for `""`): the request is rejected with the
400 ValidationError response and the database is untouched. -/
theorem empty_message_without_rating_rejected (gen_id : String) (now : Nat)
    (data : SubmitData) (db : FeedbackDB)
    (hreq : requiredMissing data = [])
    (hmsg : data.message = some (JVal.jstr ""))
    (hrat : data.rating = none) :
    submit_feedback gen_id now data db = (.missingMessageAndRating, db) := by
  have hpn : data.package_name.isNone = false := by
    cases h : data.package_name.isNone
    · rfl
    · rw [requiredMissing, h] at hreq
      simp at hreq
  have hemp : data.isEmptyDict = false := by
    rw [SubmitData.isEmptyDict, hpn]
    simp
  unfold submit_feedback
  rw [if_neg (by simp [hemp]), if_neg (by simp [hreq]),
    if_pos (by rw [hmsg, hrat]; rfl)]

/-- Concrete payload for the C10 witness: required fields present,
`message` present but empty, `rating` absent. -/
def emptyMsgData : SubmitData :=
  { package_name := some (JVal.jstr "p"), message := some (JVal.jstr ""),
    rating := none, app_version := some (JVal.jstr "1.0"),
    device_info := none, form_id := some (JVal.jstr "f1"),
    user_id := some (JVal.jstr "u1") }

/-- Witness for C10 at a concrete payload. -/
theorem empty_message_without_rating_rejected_witness :
    requiredMissing emptyMsgData = [] ∧
    emptyMsgData.message = some (JVal.jstr "") ∧
    emptyMsgData.rating = none ∧
    submit_feedback "g" 0 emptyMsgData [] = (.missingMessageAndRating, []) :=
  ⟨rfl, rfl, rfl,
    empty_message_without_rating_rejected "g" 0 emptyMsgData [] rfl rfl rfl⟩

/-- C5: every submission missing a required field, and every submission
whose `message` is falsy while `rating` is `None`-like, is rejected with
a 400 ValidationError before the database is touched; and a submission
with the required fields present succeeds — persisting the document —
when a truthy `message` is supplied without a rating, or when a rating
passing the range validation is supplied (in particular on its own).
The freshness hypothesis on the generated id reflects MongoDB's unique
`_id` index. -/
theorem submit_validation_then_success (gen_id : String) (now : Nat)
    (data : SubmitData) (db : FeedbackDB) :
    (requiredMissing data ≠ [] →
      (submit_feedback gen_id now data db).1.isValidationError = true ∧
      (submit_feedback gen_id now data db).2 = db) ∧
    (optTruthy data.message = false → isPyNone data.rating = true →
      (submit_feedback gen_id now data db).1.isValidationError = true ∧
      (submit_feedback gen_id now data db).2 = db) ∧
    (∀ p : String, data.package_name = some (JVal.jstr p) →
      requiredMissing data = [] →
      (getCollection db p).any (fun f => f.id == gen_id) = false →
      ((optTruthy data.message = true ∧ data.rating = none) ∨
        (∃ v, data.rating = some v ∧ ratingInRange v = true)) →
      submit_feedback gen_id now data db =
        (.created gen_id,
         setCollection db p (getCollection db p ++
           [{ id := gen_id, message := data.message, rating := data.rating,
              app_version := data.app_version,
              device_info := data.device_info, form_id := data.form_id,
              user_id := data.user_id, created_at := now }]))) := by
  refine ⟨?_, ?_, ?_⟩
  · intro hreq
    unfold submit_feedback
    by_cases h1 : data.isEmptyDict = true
    · rw [if_pos h1]
      exact ⟨rfl, rfl⟩
    · rw [if_neg h1, if_pos hreq]
      exact ⟨rfl, rfl⟩
  · intro hm hr
    unfold submit_feedback
    by_cases h1 : data.isEmptyDict = true
    · rw [if_pos h1]
      exact ⟨rfl, rfl⟩
    by_cases h2 : requiredMissing data ≠ []
    · rw [if_neg h1, if_pos h2]
      exact ⟨rfl, rfl⟩
    · rw [if_neg h1, if_neg h2, if_pos (by rw [hm, hr]; rfl)]
      exact ⟨rfl, rfl⟩
  · rintro p hp hreq hfresh hs
    have hemp : ¬data.isEmptyDict = true := by
      rw [SubmitData.isEmptyDict, hp]
      simp
    have hins : submitInsert gen_id now data db =
        (.created gen_id,
         setCollection db p (getCollection db p ++
           [{ id := gen_id, message := data.message, rating := data.rating,
              app_version := data.app_version,
              device_info := data.device_info, form_id := data.form_id,
              user_id := data.user_id, created_at := now }])) := by
      simp [submitInsert, hp, hfresh]
    have hgate : ratingPresentInvalid data.rating = false := by
      rcases hs with ⟨_, hr⟩ | ⟨v, hr, hv⟩
      · rw [hr]
        rfl
      · rw [hr, ratingPresentInvalid, hv]
        rfl
    have hmr : ¬(!optTruthy data.message && isPyNone data.rating) = true := by
      rcases hs with ⟨hm, _⟩ | ⟨v, hr, hv⟩
      · rw [hm]
        simp
      · have hnn : isPyNone data.rating = false := by
          rw [hr]
          cases v with
          | jnull => rw [ratingInRange] at hv; simp [pyIntCast] at hv
          | jint n => rfl
          | jstr s => rfl
        rw [hnn]
        simp
    unfold submit_feedback
    rw [if_neg hemp, if_neg (by simp [hreq]), if_neg hmr,
      if_neg (by simp [hgate]), hins]

/-- Concrete payload for the C5 witness: message alone. -/
def msgOnlyData : SubmitData :=
  { package_name := some (JVal.jstr "p"), message := some (JVal.jstr "hi"),
    rating := none, app_version := some (JVal.jstr "1.0"),
    device_info := none, form_id := some (JVal.jstr "f1"),
    user_id := some (JVal.jstr "u1") }

/-- C5 witness payload: valid rating alone (no message). -/
def ratingOnlyData : SubmitData :=
  { msgOnlyData with message := none, rating := some (JVal.jint 4) }

/-- C5 witness payload: required field `user_id` absent. -/
def missingUserData : SubmitData :=
  { msgOnlyData with user_id := none }

/-- C5 witness payload: both `message` and `rating` absent. -/
def noContentData : SubmitData :=
  { msgOnlyData with message := none, rating := none }

/-- Witness for C5 at concrete payloads: the two success cases create
the feedback, the two failure cases are validation errors leaving the
database unchanged. -/
theorem submit_validation_then_success_witness :
    (submit_feedback "g1" 3 msgOnlyData []).1 = .created "g1" ∧
    (submit_feedback "g2" 3 ratingOnlyData []).1 = .created "g2" ∧
    (submit_feedback "g3" 3 missingUserData []).1.isValidationError = true ∧
    (submit_feedback "g4" 3 noContentData []).2 = [] ∧
    (submit_feedback "g4" 3 noContentData []).1.isValidationError = true := by
  refine ⟨?_, ?_, ?_, ?_, ?_⟩
  · rw [((submit_validation_then_success "g1" 3 msgOnlyData []).2.2 "p" rfl rfl
      rfl (Or.inl ⟨rfl, rfl⟩))]
  · rw [((submit_validation_then_success "g2" 3 ratingOnlyData []).2.2 "p" rfl rfl
      rfl (Or.inr ⟨JVal.jint 4, rfl, rfl⟩))]
  · exact ((submit_validation_then_success "g3" 3 missingUserData []).1
      (by decide)).1
  · exact ((submit_validation_then_success "g4" 3 noContentData []).2.1
      rfl rfl).2
  · exact ((submit_validation_then_success "g4" 3 noContentData []).2.1
      rfl rfl).1

/-- Payload for the C4 counterexample: `rating` present as the STRING
"3" — a value that is not an integer, but which `int("3")` coerces. -/
def stringRatingData : SubmitData :=
  { msgOnlyData with message := none, rating := some (JVal.jstr "3") }

/-- C4 counterexample: a `rating` that is present and is not an integer
between 1 and 5 (it is the string "3") is NOT rejected — the submission
is created and persisted, because the validation applies Python's
`int()` coercion before the range check. -/
theorem coercible_string_rating_accepted :
    stringRatingData.rating = some (JVal.jstr "3") ∧
    submit_feedback "g" 7 stringRatingData [] =
      (.created "g",
       [("p", [{ id := "g", message := none,
                 rating := some (JVal.jstr "3"),
                 app_version := some (JVal.jstr "1.0"), device_info := none,
                 form_id := some (JVal.jstr "f1"),
                 user_id := some (JVal.jstr "u1"), created_at := 7 }])]) := by
  exact ⟨rfl, by decide⟩

/-- C4 as amended: a present `rating` is rejected (with a 400
ValidationError, the database untouched) exactly when Python's `int()`
coercion of it fails or its result falls outside 1..5; the claim's
particular values 0, 6 and "abc" all fail that test and are rejected.
(A non-integer value that coerces into range, such as the string "3",
is accepted instead — see the counterexample.) -/
theorem uncoercible_rating_rejected (gen_id : String) (now : Nat)
    (data : SubmitData) (db : FeedbackDB) (v : JVal)
    (hr : data.rating = some v) (hv : ratingInRange v = false) :
    ((submit_feedback gen_id now data db).1.isValidationError = true ∧
     (submit_feedback gen_id now data db).2 = db) ∧
    ratingInRange (JVal.jint 0) = false ∧
    ratingInRange (JVal.jint 6) = false ∧
    ratingInRange (JVal.jstr "abc") = false := by
  refine ⟨?_, by decide, by decide, by decide⟩
  unfold submit_feedback
  by_cases h1 : data.isEmptyDict = true
  · rw [if_pos h1]
    exact ⟨rfl, rfl⟩
  by_cases h2 : requiredMissing data ≠ []
  · rw [if_neg h1, if_pos h2]
    exact ⟨rfl, rfl⟩
  by_cases h3 : (!optTruthy data.message && isPyNone data.rating) = true
  · rw [if_neg h1, if_neg h2, if_pos h3]
    exact ⟨rfl, rfl⟩
  · rw [if_neg h1, if_neg h2, if_neg h3,
      if_pos (by rw [hr, ratingPresentInvalid, hv]; rfl)]
    exact ⟨rfl, rfl⟩

/-- Payload for the C4 witness: out-of-range integer rating 6. -/
def rating6Data : SubmitData :=
  { msgOnlyData with message := none, rating := some (JVal.jint 6) }

/-- Witness for the amended C4 at the payload with rating 6. -/
theorem uncoercible_rating_rejected_witness :
    rating6Data.rating = some (JVal.jint 6) ∧
    ratingInRange (JVal.jint 6) = false ∧
    (submit_feedback "g" 0 rating6Data []).1.isValidationError = true ∧
    (submit_feedback "g" 0 rating6Data []).2 = [] :=
  ⟨rfl, rfl,
    ((uncoercible_rating_rejected "g" 0 rating6Data [] (JVal.jint 6)
      rfl rfl).1).1,
    ((uncoercible_rating_rejected "g" 0 rating6Data [] (JVal.jint 6)
      rfl rfl).1).2⟩

/-! ## Properties of the aggregation and query operations (C2, C6, C9) -/

/-- A collection keyed differently does not affect lookups. -/
lemma getCollection_cons_ne (k : String) (v : List FeedbackDoc)
    (rest : FeedbackDB) (name : String) (h : (k == name) = false) :
    getCollection ((k, v) :: rest) name = getCollection rest name := by
  unfold getCollection
  simp [List.find?_cons, h]

/-- Writing past a collection keyed differently commutes with the cons. -/
lemma setCollection_cons_ne (k : String) (v : List FeedbackDoc)
    (rest : FeedbackDB) (name : String) (docs : List FeedbackDoc)
    (h : (k == name) = false) :
    setCollection ((k, v) :: rest) name docs =
      (k, v) :: setCollection rest name docs := by
  have h' : ¬k = name := by simpa using h
  unfold setCollection
  simp only [List.find?_cons, h]
  split
  · simp [h, h']
  · simp [h, h']

/-- Reading a collection back after replacing its contents returns the
new contents. -/
lemma getCollection_setCollection (db : FeedbackDB) (name : String)
    (docs : List FeedbackDoc) :
    getCollection (setCollection db name docs) name = docs := by
  induction db with
  | nil => simp [setCollection, getCollection]
  | cons c rest ih =>
    obtain ⟨k, v⟩ := c
    by_cases hk : (k == name) = true
    · have h' : k = name := by simpa using hk
      subst h'
      have hfind : (((k, v) :: rest).find? (fun c => c.1 == k)) = some (k, v) := by
        simp [List.find?_cons]
      unfold setCollection
      rw [hfind]
      simp only [Option.isSome_some, if_true, List.map_cons]
      unfold getCollection
      simp [List.find?_cons]
    · rw [setCollection_cons_ne k v rest name docs (by simpa using hk),
        getCollection_cons_ne k v (setCollection rest name docs) name
          (by simpa using hk)]
      exact ih

/-- C2: on an existing package, the average-rating endpoint returns 404
when the (optionally form-filtered) feedback set is empty; otherwise it
returns the arithmetic mean of exactly the ratings that are genuine
integers between 1 and 5, and the value 0 — with a 200, not an error —
when no feedback carries a valid rating. -/
theorem average_rating_spec (pkg : String) (fid : Option String)
    (db : FeedbackDB) (hpkg : pkg ∈ listCollectionNames db) :
    ((getCollection db pkg).filter (formQuery fid) = [] →
      get_average_rating pkg fid db = .noFeedbacks) ∧
    (∀ fs, fs = (getCollection db pkg).filter (formQuery fid) → fs ≠ [] →
      (collectRatings fs ≠ [] →
        get_average_rating pkg fid db =
          .ok (((collectRatings fs).sum : Rat) /
               ((collectRatings fs).length : Rat))) ∧
      (collectRatings fs = [] → get_average_rating pkg fid db = .ok 0)) := by
  have hnp : ¬pkg ∉ listCollectionNames db := fun h => h hpkg
  constructor
  · intro hfs
    simp only [get_average_rating, hfs]
    rw [if_neg hnp]
    simp
  · intro fs hfs hne
    subst hfs
    constructor
    · intro hr
      simp only [get_average_rating]
      rw [if_neg hnp, if_neg (by simp [hne]), if_pos (by simp [hr])]
    · intro hr
      simp only [get_average_rating]
      rw [if_neg hnp, if_neg (by simp [hne]), if_neg (by simp [hr])]

/-- The feedback set of the spec's worked example: ratings 5, 3 and a
JSON null. -/
def fb5 : FeedbackDoc :=
  { id := "1", message := none, rating := some (JVal.jint 5),
    app_version := none, device_info := none,
    form_id := some (JVal.jstr "f"), user_id := some (JVal.jstr "u"),
    created_at := 0 }

/-- Second document of the worked example: rating 3. -/
def fb3 : FeedbackDoc := { fb5 with id := "2", rating := some (JVal.jint 3) }

/-- Third document of the worked example: rating null. -/
def fbNull : FeedbackDoc := { fb5 with id := "3", rating := some JVal.jnull }

/-- The database of the worked example. -/
def exampleDB : FeedbackDB := [("p", [fb5, fb3, fbNull])]

/-- Witness for C2: over `[{rating:5},{rating:3},{rating:None}]` the
average is 4 with denominator 2. -/
theorem average_rating_spec_witness :
    get_average_rating "p" none exampleDB = .ok 4 ∧
    (collectRatings ((getCollection exampleDB "p").filter (formQuery none))).length
      = 2 := by
  have h := ((average_rating_spec "p" none exampleDB (by decide)).2
    ((getCollection exampleDB "p").filter (formQuery none)) rfl (by decide)).1
    (by decide)
  refine ⟨?_, by decide⟩
  rw [h]
  have hc : collectRatings ((getCollection exampleDB "p").filter (formQuery none))
      = [5, 3] := by decide
  rw [hc]
  norm_num

/-- C9: on an existing package, DeleteAll removes every document of the
package's collection and reports the removed count with a 200 — zero
included — while DeleteByForm answers 404 exactly when no document
matches the form id (in particular for an unknown one) and otherwise
removes the matching documents and reports their count. -/
theorem delete_operations_spec (pkg fidStr : String) (db : FeedbackDB)
    (hpkg : pkg ∈ listCollectionNames db) :
    (delete_all_feedbacks pkg db =
      (.ok (getCollection db pkg).length, setCollection db pkg [])) ∧
    getCollection (delete_all_feedbacks pkg db).2 pkg = [] ∧
    ((getCollection db pkg).filter
        (fun f => f.form_id == some (JVal.jstr fidStr)) = [] →
      (delete_feedbacks_for_form pkg fidStr db).1 = .notFound) ∧
    (∀ m, m = (getCollection db pkg).filter
        (fun f => f.form_id == some (JVal.jstr fidStr)) → m ≠ [] →
      delete_feedbacks_for_form pkg fidStr db =
        (.ok m.length,
         setCollection db pkg ((getCollection db pkg).filter
           (fun f => !(f.form_id == some (JVal.jstr fidStr)))))) := by
  have hnp : ¬pkg ∉ listCollectionNames db := fun h => h hpkg
  have hall : delete_all_feedbacks pkg db =
      (.ok (getCollection db pkg).length, setCollection db pkg []) := by
    unfold delete_all_feedbacks
    rw [if_neg hnp]
  refine ⟨hall, ?_, ?_, ?_⟩
  · rw [hall]
    exact getCollection_setCollection db pkg []
  · intro hm
    simp only [delete_feedbacks_for_form, hm]
    rw [if_neg hnp]
    simp
  · intro m hm hne
    subst hm
    simp only [delete_feedbacks_for_form]
    rw [if_neg hnp, if_neg (by simp [hne])]

/-- Witness for C9: a package whose only feedback answers form "f":
deleting by the unknown form "g" is a 404, deleting by "f" removes one,
and DeleteAll on an existing but empty package returns count 0. -/
theorem delete_operations_spec_witness :
    (delete_feedbacks_for_form "p" "g" exampleDB).1 = .notFound ∧
    delete_feedbacks_for_form "p" "f" exampleDB =
      (.ok 3, [("p", [])]) ∧
    delete_all_feedbacks "q" [("q", [])] = (.ok 0, [("q", [])]) ∧
    delete_all_feedbacks "p" exampleDB = (.ok 3, [("p", [])]) := by
  refine ⟨?_, ?_, ?_, ?_⟩
  · exact (delete_operations_spec "p" "g" exampleDB (by decide)).2.2.1 (by decide)
  · have h := (delete_operations_spec "p" "f" exampleDB (by decide)).2.2.2
      ((getCollection exampleDB "p").filter
        (fun f => f.form_id == some (JVal.jstr "f"))) rfl (by decide)
    rw [h]
    decide
  · have h := (delete_operations_spec "q" "x" [("q", [])] (by decide)).1
    rw [h]
    decide
  · have h := (delete_operations_spec "p" "x" exampleDB (by decide)).1
    rw [h]
    decide

/-- Boolean prefix agrees with `List.IsPrefix`. -/
lemma listPrefixOf_iff (p s : List Char) : listPrefixOf p s = true ↔ p <+: s := by
  induction p generalizing s with
  | nil => simp [listPrefixOf]
  | cons a p ih =>
    cases s with
    | nil => simp [listPrefixOf]
    | cons b s => simp [listPrefixOf, ih, List.cons_prefix_cons]

/-- Boolean contiguous-substring agrees with `List.IsInfix`. -/
lemma listSub_iff (p s : List Char) : listSub p s = true ↔ p <:+: s := by
  induction s with
  | nil => simp [listSub, listPrefixOf_iff]
  | cons b s ih => simp [listSub, listPrefixOf_iff, ih, List.infix_cons_iff]

/-- C6 (the storage find is modelled from the spec, see
`messageMatchesCI`): on an existing package, the search endpoint keeps
exactly the documents whose message matches the term case-insensitively
— i.e. whose lower-cased message contains the lower-cased term as a
contiguous substring — an empty term returns every document of the
package, and an empty match list is a 200 success, never a 404. -/
theorem search_by_message_spec (pkg q : String) (db : FeedbackDB)
    (hpkg : pkg ∈ listCollectionNames db) :
    search_feedback_by_message pkg q db =
      .ok ((getCollection db pkg).filter (messageMatchesCI q)) ∧
    (q = "" → search_feedback_by_message pkg q db =
      .ok (getCollection db pkg)) ∧
    ((getCollection db pkg).filter (messageMatchesCI q) = [] →
      search_feedback_by_message pkg q db = .ok []) ∧
    (∀ f : FeedbackDoc, messageMatchesCI q f = true ↔
      (q = "" ∨ ∃ s, f.message = some (JVal.jstr s) ∧
        lcList q.data <:+: lcList s.data)) := by
  have hnp : ¬pkg ∉ listCollectionNames db := fun h => h hpkg
  have hbase : search_feedback_by_message pkg q db =
      .ok ((getCollection db pkg).filter (messageMatchesCI q)) := by
    unfold search_feedback_by_message
    rw [if_neg hnp]
  refine ⟨hbase, ?_, ?_, ?_⟩
  · intro hq
    subst hq
    rw [hbase]
    congr 1
    apply List.filter_eq_self.mpr
    intro f _
    rfl
  · intro hnil
    rw [hbase, hnil]
  · intro f
    unfold messageMatchesCI
    by_cases hq : q = ""
    · simp [hq]
    · rw [if_neg hq]
      cases hm : f.message with
      | none => simp [hq, hm]
      | some v =>
        cases v with
        | jnull => simp [hq, hm]
        | jint n => simp [hq, hm]
        | jstr s => simp [hq, hm, containsCI, listSub_iff]

/-- A small searchable database for the C6 witness. -/
def searchDB : FeedbackDB :=
  [("p", [{ fb5 with message := some (JVal.jstr "Great App") },
          { fb3 with message := some (JVal.jstr "meh") },
          fbNull])]

/-- Witness for C6: the term "great" matches "Great App"
case-insensitively, the empty term returns all three documents, and a
term matching nothing yields the empty list with success. -/
theorem search_by_message_spec_witness :
    search_feedback_by_message "p" "great" searchDB =
      .ok [{ fb5 with message := some (JVal.jstr "Great App") }] ∧
    search_feedback_by_message "p" "" searchDB =
      .ok (getCollection searchDB "p") ∧
    search_feedback_by_message "p" "zzz" searchDB = .ok [] := by
  refine ⟨?_, ?_, ?_⟩
  · rw [(search_by_message_spec "p" "great" searchDB (by decide)).1]
    decide
  · exact (search_by_message_spec "p" "" searchDB (by decide)).2.1 rfl
  · exact (search_by_message_spec "p" "zzz" searchDB (by decide)).2.2.1
      (by decide)

/-! ## The statistics endpoint (claim C3) -/

/-- The number of feedback documents carrying exactly the integer
rating `n` — the value of the breakdown at key `str(n)`. -/
def countRatingVal (fs : List FeedbackDoc) (n : Int) : Nat :=
  (fs.filter (fun f => f.rating == some (JVal.jint n))).length

/-- Counting on a cons splits off the head's contribution. -/
lemma countRatingVal_cons (f : FeedbackDoc) (fs : List FeedbackDoc) (n : Int) :
    countRatingVal (f :: fs) n =
      countRatingVal fs n + (if f.rating = some (JVal.jint n) then 1 else 0) := by
  unfold countRatingVal
  rw [List.filter_cons]
  by_cases h : f.rating = some (JVal.jint n)
  · simp [h]
  · simp [h]

/-- The stats loop's breakdown fold, characterised: starting from the
five zero-initialised keys, the final dict maps each key "i" to the
number of documents whose rating is exactly the integer i. -/
lemma breakdown_foldl (fs : List FeedbackDoc) (a1 a2 a3 a4 a5 : Nat) :
    fs.foldl breakdownStep
        [("1", a1), ("2", a2), ("3", a3), ("4", a4), ("5", a5)] =
      [("1", a1 + countRatingVal fs 1), ("2", a2 + countRatingVal fs 2),
       ("3", a3 + countRatingVal fs 3), ("4", a4 + countRatingVal fs 4),
       ("5", a5 + countRatingVal fs 5)] := by
  induction fs generalizing a1 a2 a3 a4 a5 with
  | nil => simp [countRatingVal]
  | cons f fs ih =>
    rw [List.foldl_cons]
    simp only [countRatingVal_cons]
    cases hr : f.rating with
    | none =>
      rw [show breakdownStep [("1", a1), ("2", a2), ("3", a3), ("4", a4), ("5", a5)] f
            = [("1", a1), ("2", a2), ("3", a3), ("4", a4), ("5", a5)] from by
          unfold breakdownStep; rw [hr]; try rfl, ih]
      simp [hr]
    | some v =>
      cases v with
      | jnull =>
        rw [show breakdownStep [("1", a1), ("2", a2), ("3", a3), ("4", a4), ("5", a5)] f
              = [("1", a1), ("2", a2), ("3", a3), ("4", a4), ("5", a5)] from by
            unfold breakdownStep; rw [hr]; try rfl, ih]
        simp [hr]
      | jstr s =>
        rw [show breakdownStep [("1", a1), ("2", a2), ("3", a3), ("4", a4), ("5", a5)] f
              = [("1", a1), ("2", a2), ("3", a3), ("4", a4), ("5", a5)] from by
            unfold breakdownStep; rw [hr]; try rfl, ih]
        simp [hr]
      | jint n =>
        by_cases hn : 1 ≤ n ∧ n ≤ 5
        · obtain ⟨hn1, hn2⟩ := hn
          interval_cases n
          · rw [show breakdownStep [("1", a1), ("2", a2), ("3", a3), ("4", a4), ("5", a5)] f
                  = [("1", a1 + 1), ("2", a2), ("3", a3), ("4", a4), ("5", a5)] from by
                unfold breakdownStep; rw [hr]; try rfl, ih]
            simp [hr]
            try omega
          · rw [show breakdownStep [("1", a1), ("2", a2), ("3", a3), ("4", a4), ("5", a5)] f
                  = [("1", a1), ("2", a2 + 1), ("3", a3), ("4", a4), ("5", a5)] from by
                unfold breakdownStep; rw [hr]; try rfl, ih]
            simp [hr]
            try omega
          · rw [show breakdownStep [("1", a1), ("2", a2), ("3", a3), ("4", a4), ("5", a5)] f
                  = [("1", a1), ("2", a2), ("3", a3 + 1), ("4", a4), ("5", a5)] from by
                unfold breakdownStep; rw [hr]; try rfl, ih]
            simp [hr]
            try omega
          · rw [show breakdownStep [("1", a1), ("2", a2), ("3", a3), ("4", a4), ("5", a5)] f
                  = [("1", a1), ("2", a2), ("3", a3), ("4", a4 + 1), ("5", a5)] from by
                unfold breakdownStep; rw [hr]; try rfl, ih]
            simp [hr]
            try omega
          · rw [show breakdownStep [("1", a1), ("2", a2), ("3", a3), ("4", a4), ("5", a5)] f
                  = [("1", a1), ("2", a2), ("3", a3), ("4", a4), ("5", a5 + 1)] from by
                unfold breakdownStep; rw [hr]; try rfl, ih]
            simp [hr]
            try omega
        · rw [show breakdownStep [("1", a1), ("2", a2), ("3", a3), ("4", a4), ("5", a5)] f
                = [("1", a1), ("2", a2), ("3", a3), ("4", a4), ("5", a5)] from by
              unfold breakdownStep
              rw [hr]
              simp only [isValidRating]
              rw [if_neg (by simp [hn])], ih]
          have h1 : ¬(n = 1) := by omega
          have h2 : ¬(n = 2) := by omega
          have h3 : ¬(n = 3) := by omega
          have h4 : ¬(n = 4) := by omega
          have h5 : ¬(n = 5) := by omega
          simp [hr, h1, h2, h3, h4, h5]

/-- The average computation shared by the two aggregate endpoints
(feedback.py lines 468-474 and 547): mean of the valid ratings, 0 when
there are none. -/
def avgValue (fs : List FeedbackDoc) : Rat :=
  if !(collectRatings fs).isEmpty then
    ((collectRatings fs).sum : Rat) / ((collectRatings fs).length : Rat)
  else 0


/-- On a non-empty filtered feedback set, the average endpoint answers
200 with the shared average value. -/
lemma get_average_rating_ok (pkg : String) (fid : Option String)
    (db : FeedbackDB) (hpkg : pkg ∈ listCollectionNames db)
    (hne : (getCollection db pkg).filter (formQuery fid) ≠ []) :
    get_average_rating pkg fid db =
      .ok (avgValue ((getCollection db pkg).filter (formQuery fid))) := by
  have hnp : ¬pkg ∉ listCollectionNames db := fun h => h hpkg
  simp only [get_average_rating, avgValue]
  rw [if_neg hnp, if_neg (by simp [hne])]
  by_cases h : (!(collectRatings
      ((getCollection db pkg).filter (formQuery fid))).isEmpty) = true
  · rw [if_pos h, if_pos h]
  · rw [if_neg h, if_neg h]


/-- C3: on an existing package, the stats endpoint returns 404 when the
(optionally form-filtered) feedback set is empty; otherwise it reports
the total number of matching feedback regardless of rating validity,
the same average value the average-rating endpoint returns (0 when no
valid rating exists), and the "1".."5" breakdown with the occurrence
count of each valid rating value, zero-count keys included. -/
theorem feedback_stats_spec (pkg : String) (fid : Option String)
    (db : FeedbackDB) (hpkg : pkg ∈ listCollectionNames db) :
    ((getCollection db pkg).filter (formQuery fid) = [] →
      get_feedback_stats pkg fid db = .noFeedbacks) ∧
    (∀ fs, fs = (getCollection db pkg).filter (formQuery fid) → fs ≠ [] →
      get_feedback_stats pkg fid db =
        .ok { total_feedback := fs.length,
              average_rating := avgValue fs,
              rating_breakdown :=
                [("1", countRatingVal fs 1), ("2", countRatingVal fs 2),
                 ("3", countRatingVal fs 3), ("4", countRatingVal fs 4),
                 ("5", countRatingVal fs 5)] } ∧
      get_average_rating pkg fid db = .ok (avgValue fs)) := by
  have hnp : ¬pkg ∉ listCollectionNames db := fun h => h hpkg
  constructor
  · intro hfs
    simp only [get_feedback_stats, hfs]
    rw [if_neg hnp]
    simp
  · intro fs hfs hne
    subst hfs
    refine ⟨?_, get_average_rating_ok pkg fid db hpkg hne⟩
    simp only [get_feedback_stats, initBreakdown]
    rw [if_neg hnp, if_neg (by simp [hne]), breakdown_foldl]
    simp [avgValue]


/-- Witness for C3 at the worked example [{rating:5},{rating:3},
{rating:None}]: total 3, average 4, breakdown
{"1":0,"2":0,"3":1,"4":0,"5":1}. -/
theorem feedback_stats_spec_witness :
    get_feedback_stats "p" none exampleDB =
      .ok { total_feedback := 3, average_rating := 4,
            rating_breakdown :=
              [("1", 0), ("2", 0), ("3", 1), ("4", 0), ("5", 1)] } := by
  have h := ((feedback_stats_spec "p" none exampleDB (by decide)).2
    ((getCollection exampleDB "p").filter (formQuery none)) rfl (by decide)).1
  rw [h]
  have h1 : ((getCollection exampleDB "p").filter (formQuery none)).length = 3 := by
    decide
  have hc1 : countRatingVal ((getCollection exampleDB "p").filter (formQuery none)) 1
      = 0 := by decide
  have hc2 : countRatingVal ((getCollection exampleDB "p").filter (formQuery none)) 2
      = 0 := by decide
  have hc3 : countRatingVal ((getCollection exampleDB "p").filter (formQuery none)) 3
      = 1 := by decide
  have hc4 : countRatingVal ((getCollection exampleDB "p").filter (formQuery none)) 4
      = 0 := by decide
  have hc5 : countRatingVal ((getCollection exampleDB "p").filter (formQuery none)) 5
      = 1 := by decide
  have havg : avgValue ((getCollection exampleDB "p").filter (formQuery none)) = 4 := by
    unfold avgValue
    rw [show collectRatings ((getCollection exampleDB "p").filter (formQuery none))
        = [5, 3] from by decide]
    norm_num
  rw [h1, hc1, hc2, hc3, hc4, hc5, havg]

/-! ## The form repository invariants (claims C1, C7, C8) -/

/-- `create_form`'s deactivation step keeps the document id. -/
lemma deactivateActiveStep_id (pkg : String) (now : Nat) (f : FormDoc) :
    (deactivateActiveStep pkg now f).id = f.id := by
  unfold deactivateActiveStep
  split <;> rfl

/-- `update_form_status`'s sibling-deactivation step keeps the id. -/
lemma deactivateOtherStep_id (pkg fid : String) (f : FormDoc) :
    (deactivateOtherStep pkg fid f).id = f.id := by
  unfold deactivateOtherStep
  split <;> rfl

/-- The sibling-deactivation step keeps the package name. -/
lemma deactivateOtherStep_package (pkg fid : String) (f : FormDoc) :
    (deactivateOtherStep pkg fid f).package_name = f.package_name := by
  unfold deactivateOtherStep
  split <;> rfl

/-- The sibling-deactivation step NEVER touches `updated_at`: its
`$set` patch contains only `is_active` (form.py line 419). -/
lemma deactivateOtherStep_updated_at (pkg fid : String) (f : FormDoc) :
    (deactivateOtherStep pkg fid f).updated_at = f.updated_at := by
  unfold deactivateOtherStep
  split <;> rfl

/-- A map whose step keeps ids keeps the id list. -/
lemma map_ids_eq (u : FormDoc → FormDoc) (hu : ∀ f, (u f).id = f.id)
    (fs : FormsDB) :
    (fs.map u).map (fun f => f.id) = fs.map (fun f => f.id) := by
  induction fs with
  | nil => rfl
  | cons f fs ih => simp [hu, ih]

/-- `update_one` with an id-preserving patch keeps the id list. -/
lemma updateFirstForm_ids (fs : FormsDB) (fid : String) (u : FormDoc → FormDoc)
    (hu : ∀ f, (u f).id = f.id) :
    (updateFirstForm fs fid u).map (fun f => f.id) = fs.map (fun f => f.id) := by
  induction fs with
  | nil => rfl
  | cons f fs ih =>
    unfold updateFirstForm
    split
    · simp [hu]
    · simp [ih]

/-- The active-form count as a `countP`. -/
lemma countActiveForms_eq_countP (pkg : String) (fs : FormsDB) :
    countActiveForms pkg fs =
      fs.countP (fun f => f.package_name == pkg && f.is_active) := by
  unfold countActiveForms
  rw [List.countP_eq_length_filter]

/-- Active-form count on a cons. -/
lemma countActiveForms_cons (pkg : String) (f : FormDoc) (fs : FormsDB) :
    countActiveForms pkg (f :: fs) =
      countActiveForms pkg fs +
        (if f.package_name = pkg ∧ f.is_active = true then 1 else 0) := by
  unfold countActiveForms
  rw [List.filter_cons]
  by_cases h : f.package_name = pkg ∧ f.is_active = true
  · simp [h]
  · simp [h]

/-- Active-form count after appending one document. -/
lemma countActiveForms_append_single (pkg : String) (fs : FormsDB) (g : FormDoc) :
    countActiveForms pkg (fs ++ [g]) =
      countActiveForms pkg fs +
        (if g.package_name = pkg ∧ g.is_active = true then 1 else 0) := by
  unfold countActiveForms
  rw [List.filter_append, List.length_append, List.filter_cons]
  by_cases h : g.package_name = pkg ∧ g.is_active = true
  · simp [h]
  · simp [h]

/-- After `create_form`'s deactivation pass, its package has no active
form left. -/
lemma countActiveForms_deactivateActive_self (pkg : String) (now : Nat)
    (fs : FormsDB) :
    countActiveForms pkg (deactivateActiveForms pkg now fs) = 0 := by
  rw [countActiveForms_eq_countP]
  unfold deactivateActiveForms
  rw [List.countP_map]
  apply List.countP_eq_zero.mpr
  intro f _
  unfold Function.comp deactivateActiveStep
  by_cases hc : (f.package_name == pkg && f.is_active) = true
  · rw [if_pos hc]
    simp
  · rw [if_neg hc]
    simpa using hc

/-- `create_form`'s deactivation pass does not affect other packages'
active counts. -/
lemma countActiveForms_deactivateActive_other (pkg pkg2 : String) (now : Nat)
    (fs : FormsDB) (hne : pkg2 ≠ pkg) :
    countActiveForms pkg (deactivateActiveForms pkg2 now fs) =
      countActiveForms pkg fs := by
  rw [countActiveForms_eq_countP, countActiveForms_eq_countP]
  unfold deactivateActiveForms
  rw [List.countP_map]
  induction fs with
  | nil => rfl
  | cons f fs ih =>
    rw [List.countP_cons, List.countP_cons, ih]
    congr 1
    unfold Function.comp deactivateActiveStep
    by_cases hc : (f.package_name == pkg2 && f.is_active) = true
    · rw [if_pos hc]
      have h1 : f.package_name = pkg2 := by
        rw [Bool.and_eq_true, beq_iff_eq] at hc
        exact hc.1
      simp [h1, hne]
    · rw [if_neg hc]

/-- The sibling-deactivation pass does not affect other packages'
active counts. -/
lemma countActiveForms_deactivateOther_other (pkg pkg2 fid : String)
    (fs : FormsDB) (hne : pkg2 ≠ pkg) :
    countActiveForms pkg (deactivateOtherForms pkg2 fid fs) =
      countActiveForms pkg fs := by
  rw [countActiveForms_eq_countP, countActiveForms_eq_countP]
  unfold deactivateOtherForms
  rw [List.countP_map]
  induction fs with
  | nil => rfl
  | cons f fs ih =>
    rw [List.countP_cons, List.countP_cons, ih]
    congr 1
    unfold Function.comp deactivateOtherStep
    by_cases hc : (f.package_name == pkg2 && f.id != fid && f.is_active) = true
    · rw [if_pos hc]
      have h1 : f.package_name = pkg2 := by
        rw [Bool.and_eq_true, Bool.and_eq_true, beq_iff_eq] at hc
        exact hc.1.1
      simp [h1, hne]
    · rw [if_neg hc]

/-- Deactivating the target form never increases an active count. -/
lemma countActiveForms_updateFirst_deactivate_le (pkg fid : String) (now : Nat)
    (fs : FormsDB) :
    countActiveForms pkg (updateFirstForm fs fid (setTargetStep false now)) ≤
      countActiveForms pkg fs := by
  induction fs with
  | nil => exact Nat.le_refl 0
  | cons f fs ih =>
    unfold updateFirstForm
    split
    · rw [countActiveForms_cons, countActiveForms_cons]
      have hz : (if (setTargetStep false now f).package_name = pkg ∧
          (setTargetStep false now f).is_active = true then 1 else 0) = 0 := by
        simp [setTargetStep]
      rw [hz]
      exact Nat.le_add_right _ _
    · rw [countActiveForms_cons, countActiveForms_cons]
      exact Nat.add_le_add_right ih _

/-- After the sibling-deactivation pass, any still-active form of the
package carries the target id. -/
lemma deactivateOtherForms_active_imp_id (pkg fid : String) (fs : FormsDB) :
    ∀ g ∈ deactivateOtherForms pkg fid fs,
      g.package_name = pkg → g.is_active = true → g.id = fid := by
  intro g hg hp ha
  unfold deactivateOtherForms at hg
  obtain ⟨f, hf, rfl⟩ := List.mem_map.mp hg
  unfold deactivateOtherStep at hp ha ⊢
  by_cases hc : (f.package_name == pkg && f.id != fid && f.is_active) = true
  · rw [if_pos hc] at ha
    simp at ha
  · rw [if_neg hc] at hp ha ⊢
    rw [Bool.and_eq_true, Bool.and_eq_true, beq_iff_eq, bne_iff_ne] at hc
    by_contra hid
    exact hc ⟨⟨hp, hid⟩, ha⟩

/-- Activating the first document with the target id leaves at most one
active form in the package, provided ids are unique and every active
form of the package already carries the target id. -/
lemma countActiveForms_updateFirst_activate_le_one (pkg fid : String) (now : Nat)
    (fs : FormsDB) (hnd : (fs.map (fun f => f.id)).Nodup)
    (hall : ∀ g ∈ fs, g.package_name = pkg → g.is_active = true → g.id = fid) :
    countActiveForms pkg (updateFirstForm fs fid (setTargetStep true now)) ≤ 1 := by
  induction fs with
  | nil => exact Nat.le_succ 0
  | cons f fs ih =>
    rw [List.map_cons, List.nodup_cons] at hnd
    obtain ⟨hfid, hnd2⟩ := hnd
    unfold updateFirstForm
    split
    case isTrue hf =>
      rw [countActiveForms_cons]
      have hz : countActiveForms pkg fs = 0 := by
        rw [countActiveForms_eq_countP]
        apply List.countP_eq_zero.mpr
        intro g hg hcon
        rw [Bool.and_eq_true, beq_iff_eq] at hcon
        have hgid : g.id = fid := hall g (List.mem_cons_of_mem f hg) hcon.1 hcon.2
        apply hfid
        rw [show f.id = fid from by simpa using hf, ← hgid]
        exact List.mem_map_of_mem (fun x => x.id) hg
      rw [hz]
      split
      · exact Nat.le_refl 1
      · exact Nat.zero_le 1
    case isFalse hf =>
      rw [countActiveForms_cons]
      have hcf : ¬(f.package_name = pkg ∧ f.is_active = true) := by
        rintro ⟨h1, h2⟩
        exact hf (by simp [hall f (List.mem_cons_self f fs) h1 h2])
      rw [if_neg hcf, Nat.add_zero]
      exact ih hnd2 (fun g hg => hall g (List.mem_cons_of_mem f hg))

/-- Lookup by id commutes with the sibling-deactivation pass. -/
lemma findFormById_deactivateOther (pkg fid : String) (fs : FormsDB) :
    findFormById (deactivateOtherForms pkg fid fs) fid =
      (findFormById fs fid).map (deactivateOtherStep pkg fid) := by
  unfold findFormById deactivateOtherForms
  induction fs with
  | nil => rfl
  | cons f fs ih =>
    rw [List.map_cons]
    by_cases hf : (f.id == fid) = true
    · simp only [List.find?_cons, deactivateOtherStep_id, hf]
      rfl
    · simp only [List.find?_cons, deactivateOtherStep_id, hf, Bool.false_eq_true]
      exact ih

/-- Updating the first id-match does not change the active count of a
package the match does not belong to, for package-preserving patches. -/
lemma countActiveForms_updateFirst_of_first_ne (pkg fid : String)
    (u : FormDoc → FormDoc)
    (hup : ∀ f, (u f).package_name = f.package_name)
    (fs : FormsDB)
    (hfirst : ∀ g, findFormById fs fid = some g → g.package_name ≠ pkg) :
    countActiveForms pkg (updateFirstForm fs fid u) = countActiveForms pkg fs := by
  induction fs with
  | nil => rfl
  | cons f fs ih =>
    unfold updateFirstForm
    split
    case isTrue hf =>
      have hg : f.package_name ≠ pkg := by
        apply hfirst
        unfold findFormById
        simp only [List.find?_cons, hf]
      rw [countActiveForms_cons, countActiveForms_cons,
        if_neg (by rw [hup f]; exact fun hcon => hg hcon.1),
        if_neg (fun hcon => hg hcon.1)]
    case isFalse hf =>
      rw [countActiveForms_cons, countActiveForms_cons]
      have ih2 := ih (fun g hg => by
        apply hfirst
        unfold findFormById at hg ⊢
        simp only [List.find?_cons, hf, Bool.false_eq_true]
        exact hg)
      rw [ih2]

/-- `create_form` preserves id uniqueness and the single-active-form
invariant (on its own package it even re-establishes it from scratch). -/
lemma create_form_preserves (g : String) (n : Nat) (p t ft : Option String)
    (forms : FormsDB) (hnd : formIdsNodup forms) (hinv : singleActiveInv forms) :
    formIdsNodup (create_form g n p t ft forms).2 ∧
      singleActiveInv (create_form g n p t ft forms).2 := by
  rcases p with _ | pkg
  · exact ⟨hnd, hinv⟩
  rcases t with _ | tt
  · exact ⟨hnd, hinv⟩
  rcases ft with _ | ff
  · exact ⟨hnd, hinv⟩
  simp only [create_form]
  by_cases hv : (pkg == "" || tt == "" ||
      !(["rating", "free_text", "rating_text"].contains ff)) = true
  · rw [if_pos hv]
    exact ⟨hnd, hinv⟩
  rw [if_neg hv]
  have hnd2 : formIdsNodup (deactivateActiveForms pkg n forms) := by
    unfold formIdsNodup deactivateActiveForms at *
    rw [map_ids_eq _ (deactivateActiveStep_id pkg n) forms]
    exact hnd
  by_cases hdup : ((deactivateActiveForms pkg n forms).any
      (fun g2 => g2.id == g)) = true
  · rw [if_pos hdup]
    constructor
    · exact hnd2
    · intro pkg2
      by_cases hp : pkg = pkg2
      · subst hp
        rw [countActiveForms_deactivateActive_self]
        exact Nat.zero_le 1
      · rw [countActiveForms_deactivateActive_other pkg2 pkg n forms hp]
        exact hinv pkg2
  · rw [if_neg hdup]
    constructor
    · unfold formIdsNodup at *
      rw [List.map_append]
      rw [List.nodup_append]
      refine ⟨by
        unfold deactivateActiveForms
        rw [map_ids_eq _ (deactivateActiveStep_id pkg n) forms]
        exact hnd, List.nodup_singleton g, ?_⟩
      intro x hx
      simp only [List.map_cons, List.map_nil, List.mem_singleton]
      intro hxg
      subst hxg
      rw [List.any_eq_true] at hdup
      apply hdup
      obtain ⟨f, hf, hfid⟩ := List.mem_map.mp hx
      exact ⟨f, hf, by simp [hfid]⟩
    · intro pkg2
      rw [countActiveForms_append_single]
      by_cases hp : pkg = pkg2
      · subst hp
        rw [countActiveForms_deactivateActive_self]
        simp
      · rw [countActiveForms_deactivateActive_other pkg2 pkg n forms hp]
        simpa [hp] using hinv pkg2

/-- `update_form_status` preserves id uniqueness and the
single-active-form invariant, whether activating or deactivating. -/
lemma update_form_status_preserves (fid : String) (b : Option Bool) (n : Nat)
    (forms : FormsDB) (hnd : formIdsNodup forms) (hinv : singleActiveInv forms) :
    formIdsNodup (update_form_status fid b n forms).2 ∧
      singleActiveInv (update_form_status fid b n forms).2 := by
  rcases b with _ | b
  · exact ⟨hnd, hinv⟩
  simp only [update_form_status]
  cases hfind : findFormById forms fid with
  | none => exact ⟨hnd, hinv⟩
  | some form =>
    cases b with
    | false =>
      simp only [Bool.false_eq_true, if_false]
      constructor
      · unfold formIdsNodup at *
        rw [updateFirstForm_ids forms fid (setTargetStep false n) (fun f => rfl)]
        exact hnd
      · intro pkg2
        exact Nat.le_trans
          (countActiveForms_updateFirst_deactivate_le pkg2 fid n forms)
          (hinv pkg2)
    | true =>
      simp only [if_true]
      constructor
      · unfold formIdsNodup at *
        rw [updateFirstForm_ids _ fid (setTargetStep true n) (fun f => rfl)]
        unfold deactivateOtherForms
        rw [map_ids_eq _ (deactivateOtherStep_id form.package_name fid) forms]
        exact hnd
      · intro pkg2
        by_cases hp : form.package_name = pkg2
        · subst hp
          apply countActiveForms_updateFirst_activate_le_one
          · unfold deactivateOtherForms
            rw [map_ids_eq _ (deactivateOtherStep_id form.package_name fid) forms]
            exact hnd
          · exact deactivateOtherForms_active_imp_id form.package_name fid forms
        · rw [countActiveForms_updateFirst_of_first_ne pkg2 fid
            (setTargetStep true n) (fun f => rfl) _ ?_]
          · rw [countActiveForms_deactivateOther_other pkg2 form.package_name
              fid forms hp]
            exact hinv pkg2
          · intro g2 hg2
            rw [findFormById_deactivateOther, hfind] at hg2
            have : g2 = deactivateOtherStep form.package_name fid form := by
              have h := hg2
              simp at h
              exact h.symm
            subst this
            rw [deactivateOtherStep_package]
            exact hp

/-- Id uniqueness together with the single-active-form invariant is
inductive over arbitrary sequential executions of form operations. -/
lemma runFormOps_preserves (ops : List FormOp) :
    ∀ forms : FormsDB, formIdsNodup forms → singleActiveInv forms →
      formIdsNodup (runFormOps ops forms) ∧
        singleActiveInv (runFormOps ops forms) := by
  induction ops with
  | nil =>
    intro forms hnd hinv
    exact ⟨hnd, hinv⟩
  | cons op ops ih =>
    intro forms hnd hinv
    have hstep : formIdsNodup (applyFormOp op forms) ∧
        singleActiveInv (applyFormOp op forms) := by
      cases op with
      | create g n p t ft => exact create_form_preserves g n p t ft forms hnd hinv
      | setActive fid b n =>
        exact update_form_status_preserves fid b n forms hnd hinv
    exact ih (applyFormOp op forms) hstep.1 hstep.2

/-- C1: every sequential execution of form operations (Create,
SetActive) starting from a state with unique form ids (MongoDB's `_id`
index) and at most one active form per package_name ends in a state
with at most one active form per package_name: Create first deactivates
all active forms of its package before inserting the new active form,
and SetActive(id, true) first deactivates every other active form of
the target's package before activating the target. -/
theorem single_active_form_invariant_preserved (ops : List FormOp)
    (forms : FormsDB) (hnd : formIdsNodup forms)
    (hinv : singleActiveInv forms) :
    singleActiveInv (runFormOps ops forms) :=
  (runFormOps_preserves ops forms hnd hinv).2

/-- Witness for C1: a five-operation run over two packages from the
empty state. -/
theorem single_active_form_invariant_preserved_witness :
    formIdsNodup ([] : FormsDB) ∧ singleActiveInv ([] : FormsDB) ∧
    singleActiveInv (runFormOps
      [FormOp.create "A" 0 (some "p") (some "ta") (some "rating"),
       FormOp.create "B" 1 (some "p") (some "tb") (some "free_text"),
       FormOp.create "C" 2 (some "q") (some "tc") (some "rating_text"),
       FormOp.setActive "A" (some true) 3,
       FormOp.setActive "A" (some false) 4] []) := by
  have h1 : formIdsNodup ([] : FormsDB) := List.nodup_nil
  have h2 : singleActiveInv ([] : FormsDB) := by
    intro pkg
    exact Nat.zero_le 1
  exact ⟨h1, h2, single_active_form_invariant_preserved _ _ h1 h2⟩

/-- An active form of package "p", last updated at time 0. -/
def formA : FormDoc :=
  { id := "A", package_name := "p", title := "ta", form_type := "rating",
    created_at := 0, updated_at := 0, is_active := true }

/-- An inactive sibling of `formA` in package "p". -/
def formB : FormDoc :=
  { id := "B", package_name := "p", title := "tb", form_type := "free_text",
    created_at := 0, updated_at := 0, is_active := false }

/-- C7 counterexample: activating B at time 5 deactivates its active
sibling A — a status change — yet A keeps `updated_at = 0`; only the
target B is stamped with 5. -/
theorem setactive_sibling_updated_at_unchanged :
    formA.is_active = true ∧ formA.updated_at = 0 ∧
    update_form_status "B" (some true) 5 [formA, formB] =
      (.ok "B" true 5 1,
       [{ formA with is_active := false },
        { formB with is_active := true, updated_at := 5 }]) ∧
    ({ formA with is_active := false } : FormDoc).updated_at = 0 := by
  refine ⟨rfl, rfl, by decide, rfl⟩

/-- C7 as amended: `create_form`'s deactivation pass and the target of
SetActive do stamp `updated_at`, but the sibling forms that
SetActive(id, true) deactivates keep their previous `updated_at`
unchanged — their `$set` patch carries only `is_active`. -/
theorem updated_at_stamping_amended (fid : String) (now : Nat)
    (forms : FormsDB) (form : FormDoc)
    (hfind : findFormById forms fid = some form) :
    (update_form_status fid (some true) now forms).2 =
      updateFirstForm (forms.map (deactivateOtherStep form.package_name fid))
        fid (setTargetStep true now) ∧
    (∀ f : FormDoc,
      (deactivateOtherStep form.package_name fid f).updated_at = f.updated_at) ∧
    (∀ f : FormDoc, f.package_name = form.package_name → f.id ≠ fid →
      f.is_active = true →
      (deactivateOtherStep form.package_name fid f).is_active = false) ∧
    (∀ f : FormDoc, (setTargetStep true now f).updated_at = now) ∧
    (∀ pkg2 : String, ∀ f : FormDoc, f.package_name = pkg2 →
      f.is_active = true →
      (deactivateActiveStep pkg2 now f).is_active = false ∧
      (deactivateActiveStep pkg2 now f).updated_at = now) := by
  refine ⟨?_, deactivateOtherStep_updated_at form.package_name fid, ?_, ?_, ?_⟩
  · simp only [update_form_status, hfind, if_true]
    rfl
  · intro f h1 h2 h3
    unfold deactivateOtherStep
    rw [if_pos (by simp [h1, h2, h3])]
  · intro f
    rfl
  · intro pkg2 f h1 h2
    unfold deactivateActiveStep
    rw [if_pos (by simp [h1, h2])]
    exact ⟨rfl, rfl⟩

/-- Witness for the amended C7 at the two-form database. -/
theorem updated_at_stamping_amended_witness :
    findFormById [formA, formB] "B" = some formB ∧
    (update_form_status "B" (some true) 5 [formA, formB]).2 =
      updateFirstForm ([formA, formB].map
        (deactivateOtherStep formB.package_name "B")) "B"
        (setTargetStep true 5) := by
  exact ⟨rfl, (updated_at_stamping_amended "B" 5 [formA, formB] formB rfl).1⟩

/-- C8 counterexample: creating a form over one active prior form
deactivates it (the handler computes `disabled_count = 1`), but the
HTTP result body consists of exactly the fields `message`, `_id`,
`created_at` and `type` — no deactivated-count field. -/
theorem create_form_response_lacks_count :
    create_form "N" 7 (some "p") (some "tn") (some "rating") [formA] =
      (.created [("message", "Form created successfully!"), ("_id", "N"),
                 ("created_at", "7"), ("type", "rating")] 1,
       [{ formA with is_active := false, updated_at := 7 },
        { id := "N", package_name := "p", title := "tn", form_type := "rating",
          created_at := 7, updated_at := 7, is_active := true }]) ∧
    (createFormResponse "N" 7 "rating").map (fun kv => kv.1) =
      ["message", "_id", "created_at", "type"] := by
  exact ⟨by decide, by decide⟩

/-- C8 as amended: a valid Create deactivates all currently-active
forms of the package, inserts the new form as the package's sole
active one with fresh id, `created_at` and `updated_at`, and computes
(and logs) how many prior forms were deactivated — but that count is
not part of its result body, whose keys are exactly `message`, `_id`,
`created_at` and `type`. -/
theorem create_form_spec_amended (gen_id : String) (now : Nat)
    (pkg tt ft : String) (forms : FormsDB)
    (hpkg : pkg ≠ "") (ht : tt ≠ "")
    (hft : (["rating", "free_text", "rating_text"].contains ft) = true)
    (hfresh : ∀ g2 ∈ forms, g2.id ≠ gen_id) :
    create_form gen_id now (some pkg) (some tt) (some ft) forms =
      (.created (createFormResponse gen_id now ft)
        (countActiveForms pkg forms),
       deactivateActiveForms pkg now forms ++
         [{ id := gen_id, package_name := pkg, title := tt, form_type := ft,
            created_at := now, updated_at := now, is_active := true }]) ∧
    (createFormResponse gen_id now ft).map (fun kv => kv.1) =
      ["message", "_id", "created_at", "type"] ∧
    countActiveForms pkg
      (deactivateActiveForms pkg now forms ++
        [{ id := gen_id, package_name := pkg, title := tt, form_type := ft,
           created_at := now, updated_at := now, is_active := true }]) = 1 ∧
    (∀ g2 ∈ forms, g2.package_name = pkg → g2.is_active = true →
      deactivateActiveStep pkg now g2 =
        { g2 with is_active := false, updated_at := now }) := by
  refine ⟨?_, rfl, ?_, ?_⟩
  · simp only [create_form]
    rw [if_neg (by
        intro hcon
        rw [hft] at hcon
        simp [hpkg, ht] at hcon),
      if_neg (by
        rw [List.any_eq_true]
        rintro ⟨g2, hg2, hid⟩
        unfold deactivateActiveForms at hg2
        obtain ⟨f, hf, rfl⟩ := List.mem_map.mp hg2
        exact hfresh f hf (by simpa [deactivateActiveStep_id] using hid))]
  · rw [countActiveForms_append_single, countActiveForms_deactivateActive_self]
    simp
  · intro g2 _ h1 h2
    unfold deactivateActiveStep
    rw [if_pos (by simp [h1, h2])]

/-- Witness for the amended C8 over a package with one active form. -/
theorem create_form_spec_amended_witness :
    create_form "N" 7 (some "p") (some "tn") (some "rating") [formA] =
      (.created (createFormResponse "N" 7 "rating")
        (countActiveForms "p" [formA]),
       deactivateActiveForms "p" 7 [formA] ++
         [{ id := "N", package_name := "p", title := "tn",
            form_type := "rating", created_at := 7, updated_at := 7,
            is_active := true }]) ∧
    countActiveForms "p" [formA] = 1 :=
  ⟨(create_form_spec_amended "N" 7 "p" "tn" "rating" [formA]
      (by decide) (by decide) (by decide)
      (by intro g2 hg2 hic
          simp only [List.mem_singleton] at hg2
          subst hg2
          simp [formA] at hic)).1,
   by decide⟩
